import Mathlib

/-!
Shallow embedding of the timestamp validation engine and the oracle
synthesizer of the synthetic-lyrics repository.

Sources embedded:
* src/scripts/validate_timestamps.py - the function validate_timestamps
  (the six checks over a decoded waveform, its sample rate and a word list,
  and the return/exit(1) tail).
* src/scripts/generate_song_bark.py - the function generate_mock_singing
  (the oracle synthesizer: harmonic waveform with vibrato and fade
  envelopes, plus the per-word timestamp slots).

Python floats are modelled as exact rationals; the synthesizer's audio
samples involve the transcendental sine and are modelled as real numbers,
so the validator is stated generically over a linear ordered field and is
instantiated at the rationals for concrete evaluation and at the reals for
the synthesizer's own output.
-/

namespace SongVal

/-! ## Python numeric and slicing primitives -/

/-- Python int() applied to a float: truncation toward zero. -/
def pyInt (q : ℚ) : ℤ := if q < 0 then ⌈q⌉ else ⌊q⌋

/-- Normalization of one slice endpoint for a Python slice a[i:j] over a
sequence of length len: a negative index counts from the end (clamped below
at 0), a nonnegative index is clamped above at len. -/
def pySliceIdx (len : ℕ) (i : ℤ) : ℕ :=
  if i < 0 then ((len : ℤ) + i).toNat else min i.toNat len

/-- Python slice a[i:j]: the elements at normalized positions i..j-1
(empty when the normalized stop does not exceed the normalized start).
Never raises, whatever the indices. -/
def pySlice {α : Type*} (l : List α) (i j : ℤ) : List α :=
  (l.take (pySliceIdx l.length j)).drop (pySliceIdx l.length i)

/-- Python round(q, 3): rounding to three decimal places. The repository
only ever rounds values whose thousandfold is an integer, where every tie
rule agrees, so Mathlib's round stands in for Python's bankers rounding. -/
def pyRound3 (q : ℚ) : ℚ := ((round (q * 1000) : ℤ) : ℚ) / 1000

/-! ## Data model -/

/-- One word-level timestamp entry, the dict with keys text, start, end
produced by the generator and consumed by the validator. The field end_
stands for the Python key end. -/
structure Word where
  text : String
  start : ℚ
  end_ : ℚ
deriving DecidableEq

/-- The default entry an out-of-range list access would need; the embedded
index loops only ever access in-range positions, so it is never read. -/
def dummyWord : Word := ⟨"", 0, 0⟩

/-- The checks dict of validate_timestamps: one boolean per named check,
in the order the source inserts them. -/
structure Checks where
  no_negative_durations : Bool
  no_overlaps : Bool
  realistic_durations : Bool
  within_bounds : Bool
  monotonic : Bool
  has_audio_energy : Bool
deriving DecidableEq

/-- all(checks.values()): the overall verdict is the conjunction of the six
checks. -/
def overallPass (c : Checks) : Bool :=
  c.no_negative_durations && c.no_overlaps && c.realistic_durations &&
    c.within_bounds && c.monotonic && c.has_audio_energy

/-! ## The energy statistic (check 6 of validate_timestamps) -/

variable {α : Type*} [LinearOrderedField α]

/-- np.mean(np.abs(segment)): none for an empty segment, where NumPy
yields NaN. -/
def meanAbs (l : List α) : Option α :=
  if l.isEmpty then none
  else some ((l.map (fun x => |x|)).sum / (l.length : α))

/-- The slice audio[int(start*sr):int(end*sr)] taken for one word by the
energy check (validate_timestamps.py lines 90-92). -/
def wordSegment (audio : List α) (sr : ℚ) (w : Word) : List α :=
  pySlice audio (pyInt (w.start * sr)) (pyInt (w.end_ * sr))

/-- Whether the energy check counts the word as silent: energy < 0.001.
For an empty segment the energy is NaN and the comparison NaN < 0.001 is
False, so the word is not counted. -/
def isSilent (audio : List α) (sr : ℚ) (w : Word) : Bool :=
  match meanAbs (wordSegment audio sr w) with
  | none => false
  | some e => decide (e < 1 / 1000)

/-! ## The six checks, each as the standalone statistic the source computes -/

/-- Check 1: the list of words with end <= start is empty. -/
def checkNoNegativeDurations (timestamps : List Word) : Bool :=
  decide ((timestamps.filter (fun w => decide (w.end_ ≤ w.start))).length = 0)

/-- Check 2: no index i in range(len-1) with timestamps[i].end >
timestamps[i+1].start. -/
def checkNoOverlaps (timestamps : List Word) : Bool :=
  decide (((List.range (timestamps.length - 1)).filter (fun i =>
    decide ((timestamps.getD i dummyWord).end_ >
      (timestamps.getD (i + 1) dummyWord).start))).length = 0)

/-- Check 3: no word whose duration leaves [0.05, 10.0] seconds. -/
def checkRealisticDurations (timestamps : List Word) : Bool :=
  decide ((timestamps.filter (fun w =>
    decide ((w.end_ - w.start) < 1 / 20 ∨ (w.end_ - w.start) > 10))).length = 0)

/-- Check 4: no word with start < 0 or end beyond the audio duration
len(audio)/sr computed from the decoded waveform. -/
def checkWithinBounds (audioDuration : ℚ) (timestamps : List Word) : Bool :=
  decide ((timestamps.filter (fun w =>
    decide (w.start < 0 ∨ w.end_ > audioDuration))).length = 0)

/-- Check 5: no index i in range(len-1) with timestamps[i].start >=
timestamps[i+1].start. -/
def checkMonotonic (timestamps : List Word) : Bool :=
  decide (((List.range (timestamps.length - 1)).filter (fun i =>
    decide ((timestamps.getD i dummyWord).start ≥
      (timestamps.getD (i + 1) dummyWord).start))).length = 0)

/-- Check 6: the count of silent words stays under len(timestamps) * 0.1. -/
def checkHasAudioEnergy (audio : List α) (sr : ℚ) (timestamps : List Word) : Bool :=
  decide (((timestamps.filter (fun w => isSilent audio sr w)).length : ℚ) <
    (timestamps.length : ℚ) * (1 / 10))

/-! ## The validator (validate_timestamps.py lines 41-114) -/

/-- The checks dict assembled by validate_timestamps, transcribed check by
check from the source: each entry is the emptiness (or, for energy, the
fraction bound) of the list of violations the source accumulates. -/
def validate_timestamps (audio : List α) (sr : ℚ) (timestamps : List Word) : Checks :=
  let audio_duration : ℚ := (audio.length : ℚ) / sr
  let negative_durations := timestamps.filter (fun w => decide (w.end_ ≤ w.start))
  let overlaps := (List.range (timestamps.length - 1)).filter (fun i =>
    decide ((timestamps.getD i dummyWord).end_ > (timestamps.getD (i + 1) dummyWord).start))
  let unrealistic := timestamps.filter (fun w =>
    decide ((w.end_ - w.start) < 1 / 20 ∨ (w.end_ - w.start) > 10))
  let out_of_bounds := timestamps.filter (fun w =>
    decide (w.start < 0 ∨ w.end_ > audio_duration))
  let non_monotonic := (List.range (timestamps.length - 1)).filter (fun i =>
    decide ((timestamps.getD i dummyWord).start ≥ (timestamps.getD (i + 1) dummyWord).start))
  let silent_words := timestamps.filter (fun w => isSilent audio sr w)
  { no_negative_durations := decide (negative_durations.length = 0)
    no_overlaps := decide (overlaps.length = 0)
    realistic_durations := decide (unrealistic.length = 0)
    within_bounds := decide (out_of_bounds.length = 0)
    monotonic := decide (non_monotonic.length = 0)
    has_audio_energy := decide ((silent_words.length : ℚ) <
      (timestamps.length : ℚ) * (1 / 10)) }

/-- The observable outcome of the tail of validate_timestamps (lines
113-124): either the function returns a value to its caller, or exit(1)
terminates the process from inside the function. -/
inductive RunResult where
  | returned (b : Bool)
  | exitedProcess (code : ℕ)
deriving DecidableEq

/-- Lines 113-124 of validate_timestamps: when every check passed the
function returns all_passed = True; otherwise it calls exit(1) before the
return statement is reached. -/
def validateRun (audio : List α) (sr : ℚ) (timestamps : List Word) :
    Checks × RunResult :=
  let checks := validate_timestamps audio sr timestamps
  if overallPass checks then (checks, RunResult.returned true)
  else (checks, RunResult.exitedProcess 1)

/-! ## The timestamp file wrapper (generate_song_bark.py lines 208-219)

The JSON record written next to the audio: the validator loads it and reads
only its words list (validate_timestamps.py line 34); every other field is
wrapping metadata. -/

/-- The nested metadata dict of the timestamp file. -/
structure SongMetadata where
  generator : String
  sample_rate : ℚ
  word_count : ℕ
  generation_timestamp : String
deriving DecidableEq

/-- The timestamp_data record of generate_song_bark.py. -/
structure TimestampFile where
  song_id : String
  lyrics : String
  duration : ℚ
  words : List Word
  metadata : SongMetadata
deriving DecidableEq

/-- validate_timestamps applied to a loaded timestamp file: the source
extracts data['words'] and touches nothing else of the record; the sample
rate and duration it uses come from the decoded audio file. -/
def validateFile (audio : List α) (sr : ℚ) (f : TimestampFile) : Checks :=
  validate_timestamps audio sr f.words

/-! ## The oracle synthesizer (generate_song_bark.py lines 121-160)

generate_mock_singing(index, lyrics) with words = lyrics.split(); the
embedding takes the word list directly, matching the contract
synthesize(words, seed). The sample values involve the sine, so the
waveform lives in the reals. -/

/-- sr = 22050. -/
def mockSr : ℚ := 22050

/-- duration = len(words) * 0.8. -/
def mockDuration (n : ℕ) : ℚ := (n : ℚ) * (4 / 5)

/-- len(t) = int(sr * duration): the number of samples of the waveform. -/
def mockNumSamples (n : ℕ) : ℕ := (pyInt (mockSr * mockDuration n)).toNat

/-- fade = int(0.05 * sr) = 1102 samples of linear fade at each edge. -/
def mockFade : ℕ := (pyInt ((1 / 20) * mockSr)).toNat

/-- fundamental = 220 + (index * 5). -/
noncomputable def mockFundamental (index : ℤ) : ℝ := 220 + (index : ℝ) * 5

/-- t[k] of np.linspace(0, duration, N): duration * k / (N - 1). -/
noncomputable def mockT (n k : ℕ) : ℝ :=
  ((mockDuration n : ℚ) : ℝ) * (k : ℝ) / ((mockNumSamples n : ℝ) - 1)

/-- The three-harmonic signal 0.30 sin(2 pi f t) + 0.15 sin(2 pi 2f t) +
0.08 sin(2 pi 3f t). -/
noncomputable def mockRaw (index : ℤ) (n k : ℕ) : ℝ :=
  (30 / 100) * Real.sin (2 * Real.pi * mockFundamental index * mockT n k) +
    (15 / 100) * Real.sin (2 * Real.pi * (mockFundamental index * 2) * mockT n k) +
    (8 / 100) * Real.sin (2 * Real.pi * (mockFundamental index * 3) * mockT n k)

/-- The vibrato factor (1 + 0.015 sin(2 pi 5.5 t)). -/
noncomputable def mockVibrato (n k : ℕ) : ℝ :=
  1 + (15 / 1000) * Real.sin (2 * Real.pi * (11 / 2) * mockT n k)

/-- The product of the fade-in multiplier (audio[:fade] *= linspace(0,1,fade))
and the fade-out multiplier (audio[-fade:] *= linspace(1,0,fade)) at sample
k of an N-sample waveform. -/
noncomputable def mockEnvelope (n k : ℕ) : ℝ :=
  (if k < mockFade then (k : ℝ) / ((mockFade : ℝ) - 1) else 1) *
    (if mockNumSamples n - mockFade ≤ k then
      ((mockNumSamples n : ℝ) - 1 - (k : ℝ)) / ((mockFade : ℝ) - 1) else 1)

/-- Sample k of the mock waveform: harmonics times vibrato times envelope. -/
noncomputable def mockSample (index : ℤ) (n k : ℕ) : ℝ :=
  mockRaw index n k * mockVibrato n k * mockEnvelope n k

/-- The full mock waveform. -/
noncomputable def mockAudio (index : ℤ) (n : ℕ) : List ℝ :=
  (List.range (mockNumSamples n)).map (mockSample index n)

/-- time_per_word = duration / len(words). -/
def timePerWord (n : ℕ) : ℚ := mockDuration n / (n : ℚ)

/-- The timestamp list: for i, word in enumerate(words), the entry
{text: word, start: round(i*time_per_word, 3), end: round((i+1)*time_per_word, 3)}. -/
def mockTimestamps (words : List String) : List Word :=
  (List.range words.length).map (fun i =>
    ⟨words.getD i "", pyRound3 ((i : ℚ) * timePerWord words.length),
      pyRound3 (((i : ℚ) + 1) * timePerWord words.length)⟩)

/-- generate_mock_singing as a fallible operation. On an empty word list the
source raises before returning: the envelope line audio[:fade] *=
np.linspace(0, 1, fade) fails to broadcast a length-1102 factor onto the
empty waveform (and time_per_word = duration / len(words) would divide by
zero); the embedding returns none for that aborted call. -/
noncomputable def generate_mock_singing (index : ℤ) (words : List String) :
    Option (List ℝ × ℚ × List Word) :=
  if words.isEmpty then none
  else some (mockAudio index words.length, mockSr, mockTimestamps words)

/-! ## Specification-side reading of the energy check (claim C3)

These definitions transcribe the claim's wording for has_audio_energy
literally - sample indices round(start*sr)..round(end*sr) clamped to the
valid range, a word lacking energy exactly when its mean absolute
amplitude does not exceed 0.001, the check passing exactly when the
fraction of lacking words is below 10 percent - to be compared with the
code's check above. -/

/-- A sample index clamped to the valid range 0..len. -/
def clampIdx (len : ℕ) (i : ℤ) : ℕ := min i.toNat len

/-- The spec's slice of the waveform for one word. -/
def specWordSlice (audio : List ℚ) (sr : ℚ) (w : Word) : List ℚ :=
  (audio.take (clampIdx audio.length (round (w.end_ * sr)))).drop
    (clampIdx audio.length (round (w.start * sr)))

/-- The spec's per-word criterion: mean absolute amplitude of the slice
does not exceed the 0.001 threshold. -/
def specLacksEnergy (audio : List ℚ) (sr : ℚ) (w : Word) : Bool :=
  decide (((specWordSlice audio sr w).map (fun x => |x|)).sum /
    ((specWordSlice audio sr w).length : ℚ) ≤ 1 / 1000)

/-- The spec's overall check: the fraction of words lacking energy stays
below the 10 percent tolerance. -/
def specHasAudioEnergy (audio : List ℚ) (sr : ℚ) (ts : List Word) : Bool :=
  decide (((ts.filter (fun w => specLacksEnergy audio sr w)).length : ℚ) <
    (ts.length : ℚ) * (1 / 10))

/-! ## Helper lemmas: the validator's checks characterized -/

/-- The validator computes every one of the six checks unconditionally:
its report is exactly the record of the six standalone statistics. -/
theorem validate_eq (audio : List α) (sr : ℚ) (ts : List Word) :
    validate_timestamps audio sr ts =
      ⟨checkNoNegativeDurations ts, checkNoOverlaps ts, checkRealisticDurations ts,
        checkWithinBounds ((audio.length : ℚ) / sr) ts, checkMonotonic ts,
        checkHasAudioEnergy audio sr ts⟩ := rfl

theorem checkNoNegativeDurations_iff (ts : List Word) :
    checkNoNegativeDurations ts = true ↔ ∀ w ∈ ts, w.start < w.end_ := by
  simp [checkNoNegativeDurations, List.length_eq_zero, List.filter_eq_nil_iff, not_le]

theorem checkNoOverlaps_iff (ts : List Word) :
    checkNoOverlaps ts = true ↔ ∀ i, i + 1 < ts.length →
      (ts.getD i dummyWord).end_ ≤ (ts.getD (i + 1) dummyWord).start := by
  simp [checkNoOverlaps, List.length_eq_zero, List.filter_eq_nil_iff, List.mem_range,
    Nat.lt_sub_iff_add_lt, not_lt]

theorem checkRealisticDurations_iff (ts : List Word) :
    checkRealisticDurations ts = true ↔
      ∀ w ∈ ts, 1 / 20 ≤ w.end_ - w.start ∧ w.end_ - w.start ≤ 10 := by
  simp [checkRealisticDurations, List.length_eq_zero, List.filter_eq_nil_iff, not_or,
    not_lt]

theorem checkWithinBounds_iff (D : ℚ) (ts : List Word) :
    checkWithinBounds D ts = true ↔ ∀ w ∈ ts, 0 ≤ w.start ∧ w.end_ ≤ D := by
  simp [checkWithinBounds, List.length_eq_zero, List.filter_eq_nil_iff, not_or, not_lt]

theorem checkMonotonic_iff (ts : List Word) :
    checkMonotonic ts = true ↔ ∀ i, i + 1 < ts.length →
      (ts.getD i dummyWord).start < (ts.getD (i + 1) dummyWord).start := by
  simp [checkMonotonic, List.length_eq_zero, List.filter_eq_nil_iff, List.mem_range,
    Nat.lt_sub_iff_add_lt, not_le]

theorem checkHasAudioEnergy_iff (audio : List α) (sr : ℚ) (ts : List Word) :
    checkHasAudioEnergy audio sr ts = true ↔
      10 * (ts.filter (fun w => isSilent audio sr w)).length < ts.length := by
  simp only [checkHasAudioEnergy, decide_eq_true_eq]
  rw [show (ts.length : ℚ) * (1 / 10) = (ts.length : ℚ) / 10 by ring,
    lt_div_iff₀ (by norm_num : (0 : ℚ) < 10), mul_comm (10 : ℕ)]
  exact_mod_cast Iff.rfl

/-- A Python slice never reads outside the sequence: it is a sublist of it. -/
theorem pySlice_sublist {β : Type*} (l : List β) (i j : ℤ) :
    List.Sublist (pySlice l i j) l :=
  (List.drop_sublist _ _).trans (List.take_sublist _ _)

/-! ## Helper lemmas: the synthesizer's exact timing -/

theorem mockNumSamples_eq (n : ℕ) : mockNumSamples n = 17640 * n := by
  have hq : mockSr * mockDuration n = ((17640 * n : ℕ) : ℚ) := by
    unfold mockSr mockDuration; push_cast; ring
  unfold mockNumSamples pyInt
  rw [hq, if_neg (not_lt.mpr (Nat.cast_nonneg _)), Int.floor_natCast]
  exact Int.toNat_natCast _

theorem mockAudio_length (index : ℤ) (n : ℕ) :
    (mockAudio index n).length = 17640 * n := by
  simp [mockAudio, mockNumSamples_eq]

/-- The audio duration the validator computes from the mock waveform. -/
theorem mockAudio_duration (index : ℤ) (n : ℕ) :
    ((mockAudio index n).length : ℚ) / mockSr = (n : ℚ) * (4 / 5) := by
  rw [mockAudio_length]
  unfold mockSr
  push_cast
  field_simp
  ring

theorem timePerWord_eq (n : ℕ) (h : n ≠ 0) : timePerWord n = 4 / 5 := by
  have : (n : ℚ) ≠ 0 := Nat.cast_ne_zero.mpr h
  unfold timePerWord mockDuration
  field_simp
  ring

/-- Rounding to three decimals is exact on the slot boundaries: they are
integer multiples of 0.8, whose thousandfold is an integer. -/
theorem pyRound3_int_mul (k : ℤ) : pyRound3 ((k : ℚ) * (4 / 5)) = (k : ℚ) * (4 / 5) := by
  have h : (k : ℚ) * (4 / 5) * 1000 = ((800 * k : ℤ) : ℚ) := by push_cast; ring
  unfold pyRound3
  rw [h, round_intCast]
  push_cast
  ring

theorem mockTimestamps_length (words : List String) :
    (mockTimestamps words).length = words.length := by
  simp [mockTimestamps]

/-- The entry at index i of the mock timestamp list, with the rounding
discharged: text words[i], start i*0.8, end (i+1)*0.8. -/
theorem pyRound3_slot (n i : ℕ) (hn : n ≠ 0) :
    pyRound3 ((i : ℚ) * timePerWord n) = (i : ℚ) * (4 / 5) := by
  rw [timePerWord_eq _ hn]
  exact_mod_cast pyRound3_int_mul (i : ℤ)

theorem pyRound3_slot' (n i : ℕ) (hn : n ≠ 0) :
    pyRound3 (((i : ℚ) + 1) * timePerWord n) = ((i : ℚ) + 1) * (4 / 5) := by
  rw [timePerWord_eq _ hn]
  have := pyRound3_int_mul ((i : ℤ) + 1)
  push_cast at this
  exact this

/-- The entry at index i of the mock timestamp list, with the rounding
discharged: text words[i], start i*0.8, end (i+1)*0.8. -/
theorem mockTimestamps_getD (words : List String) (i : ℕ) (h : i < words.length) :
    (mockTimestamps words).getD i dummyWord =
      ⟨words.getD i "", (i : ℚ) * (4 / 5), ((i : ℚ) + 1) * (4 / 5)⟩ := by
  have hn : words.length ≠ 0 := by omega
  unfold mockTimestamps
  rw [List.getD_eq_getElem?_getD, List.getElem?_map, List.getElem?_range h]
  simp [pyRound3_slot _ _ hn, pyRound3_slot' _ _ hn]

/-- Every entry of the mock timestamp list is the exact slot of some index. -/
theorem mockTimestamps_mem (words : List String) (w : Word)
    (hw : w ∈ mockTimestamps words) :
    ∃ i, i < words.length ∧
      w = ⟨words.getD i "", (i : ℚ) * (4 / 5), ((i : ℚ) + 1) * (4 / 5)⟩ := by
  have hn : words.length ≠ 0 := by
    intro h0
    rw [mockTimestamps, h0] at hw
    simp at hw
  unfold mockTimestamps at hw
  rw [List.mem_map] at hw
  obtain ⟨i, hi, rfl⟩ := hw
  rw [List.mem_range] at hi
  exact ⟨i, hi, by rw [pyRound3_slot _ _ hn, pyRound3_slot' _ _ hn]⟩

/-- The five structural checks all pass on the synthesizer's own output. -/
theorem mock_structural_checks (index : ℤ) (words : List String) (h : words ≠ []) :
    checkNoNegativeDurations (mockTimestamps words) = true ∧
    checkNoOverlaps (mockTimestamps words) = true ∧
    checkRealisticDurations (mockTimestamps words) = true ∧
    checkWithinBounds (((mockAudio index words.length).length : ℚ) / mockSr)
      (mockTimestamps words) = true ∧
    checkMonotonic (mockTimestamps words) = true := by
  have hn : words.length ≠ 0 := fun h0 => h (List.length_eq_zero.mp h0)
  refine ⟨?_, ?_, ?_, ?_, ?_⟩
  · rw [checkNoNegativeDurations_iff]
    intro w hw
    obtain ⟨i, hi, rfl⟩ := mockTimestamps_mem _ _ hw
    show (i : ℚ) * (4 / 5) < ((i : ℚ) + 1) * (4 / 5)
    nlinarith [Nat.cast_nonneg (α := ℚ) i]
  · rw [checkNoOverlaps_iff]
    intro i hi
    rw [mockTimestamps_length] at hi
    rw [mockTimestamps_getD _ _ (by omega), mockTimestamps_getD _ _ hi]
    show ((i : ℚ) + 1) * (4 / 5) ≤ ((i + 1 : ℕ) : ℚ) * (4 / 5)
    push_cast
    linarith
  · rw [checkRealisticDurations_iff]
    intro w hw
    obtain ⟨i, hi, rfl⟩ := mockTimestamps_mem _ _ hw
    show 1 / 20 ≤ ((i : ℚ) + 1) * (4 / 5) - (i : ℚ) * (4 / 5) ∧
      ((i : ℚ) + 1) * (4 / 5) - (i : ℚ) * (4 / 5) ≤ 10
    constructor <;> nlinarith [Nat.cast_nonneg (α := ℚ) i]
  · rw [checkWithinBounds_iff, mockAudio_duration]
    intro w hw
    obtain ⟨i, hi, rfl⟩ := mockTimestamps_mem _ _ hw
    have hle : (i : ℚ) + 1 ≤ (words.length : ℚ) := by exact_mod_cast hi
    constructor
    · show (0 : ℚ) ≤ (i : ℚ) * (4 / 5)
      positivity
    · show ((i : ℚ) + 1) * (4 / 5) ≤ (words.length : ℚ) * (4 / 5)
      nlinarith
  · rw [checkMonotonic_iff]
    intro i hi
    rw [mockTimestamps_length] at hi
    rw [mockTimestamps_getD _ _ (by omega), mockTimestamps_getD _ _ hi]
    show (i : ℚ) * (4 / 5) < ((i + 1 : ℕ) : ℚ) * (4 / 5)
    push_cast
    nlinarith [Nat.cast_nonneg (α := ℚ) i]

/-! ## Helper lemmas: the waveform at the degenerate seed -44

fundamental = 220 + (-44)*5 = 0, so every harmonic is sin 0 = 0 and the
whole waveform is identically zero. -/

theorem mockFundamental_neg44 : mockFundamental (-44) = 0 := by
  unfold mockFundamental
  push_cast
  ring

theorem mockRaw_neg44 (n k : ℕ) : mockRaw (-44) n k = 0 := by
  unfold mockRaw
  rw [mockFundamental_neg44]
  simp

theorem mockSample_neg44 (n k : ℕ) : mockSample (-44) n k = 0 := by
  unfold mockSample
  rw [mockRaw_neg44]
  ring

theorem mockAudio_neg44 (n : ℕ) : mockAudio (-44) n = List.replicate (17640 * n) 0 := by
  rw [List.eq_replicate_iff]
  constructor
  · exact mockAudio_length _ _
  · intro b hb
    unfold mockAudio at hb
    rw [List.mem_map] at hb
    obtain ⟨k, _, rfl⟩ := hb
    exact mockSample_neg44 n k

/-- Over an all-zero waveform, any word whose slice is non-empty is counted
silent: the mean absolute amplitude is exactly 0 < 0.001. -/
theorem isSilent_replicate_zero {β : Type*} [LinearOrderedField β] (m : ℕ) (sr : ℚ)
    (w : Word) (hne : wordSegment (List.replicate m (0 : β)) sr w ≠ []) :
    isSilent (List.replicate m (0 : β)) sr w = true := by
  have hzero : ∀ x ∈ wordSegment (List.replicate m (0 : β)) sr w, x = 0 := by
    intro x hx
    exact List.eq_of_mem_replicate ((pySlice_sublist _ _ _).mem hx)
  have hsum : ((wordSegment (List.replicate m (0 : β)) sr w).map (fun x => |x|)).sum = 0 := by
    apply List.sum_eq_zero
    intro x hx
    rw [List.mem_map] at hx
    obtain ⟨y, hy, rfl⟩ := hx
    rw [hzero y hy, abs_zero]
  unfold isSilent
  rw [show meanAbs (wordSegment (List.replicate m (0 : β)) sr w) = some 0 by
    unfold meanAbs
    rw [if_neg (by simpa [List.isEmpty_iff] using hne), hsum, zero_div]]
  rw [decide_eq_true_iff]
  norm_num

/-- The single timestamp entry the synthesizer produces for one word. -/
theorem mockTimestamps_single : mockTimestamps ["a"] = [⟨"a", 0, 4 / 5⟩] := by
  have e0 : pyRound3 0 = 0 := by
    unfold pyRound3
    norm_num
  have e1 : pyRound3 (timePerWord 1) = 4 / 5 := by
    rw [timePerWord_eq 1 one_ne_zero,
      show pyRound3 (4 / 5) = pyRound3 ((( 1 : ℤ) : ℚ) * (4 / 5)) by norm_num,
      pyRound3_int_mul]
    norm_num
  unfold mockTimestamps
  simp [List.range_succ, e0, e1]

theorem pyInt_zero_sr : pyInt ((0 : ℚ) * mockSr) = 0 := by
  norm_num [pyInt, mockSr]

theorem pyInt_end_sr : pyInt ((4 / 5 : ℚ) * mockSr) = 17640 := by
  norm_num [pyInt, mockSr]

/-- The energy slice of the single word covers the whole zero waveform. -/
theorem wordSegment_neg44 :
    wordSegment (mockAudio (-44) 1) mockSr ⟨"a", 0, 4 / 5⟩ =
      List.replicate 17640 (0 : ℝ) := by
  rw [show mockAudio (-44) 1 = List.replicate 17640 (0 : ℝ) by
    rw [mockAudio_neg44]]
  show pySlice _ (pyInt ((0 : ℚ) * mockSr)) (pyInt ((4 / 5 : ℚ) * mockSr)) = _
  rw [pyInt_zero_sr, pyInt_end_sr]
  unfold pySlice
  rw [List.length_replicate,
    show pySliceIdx 17640 17640 = 17640 from rfl,
    show pySliceIdx 17640 0 = 0 from rfl,
    List.drop_zero, List.take_replicate, min_self]

/-- On an empty word list, the five structural checks pass vacuously but
the energy check compares 0 < 0 * 0.1 and fails. -/
theorem validate_nil (audio : List α) (sr : ℚ) :
    validate_timestamps audio sr ([] : List Word) =
      ⟨true, true, true, true, true, false⟩ := by
  have h6 : checkHasAudioEnergy audio sr ([] : List Word) = false := by
    rw [Bool.eq_false_iff, Ne, checkHasAudioEnergy_iff]
    simp
  rw [validate_eq, h6]
  rfl

/-! ## Claim C1 -/

/-- C1, counterexample: the claimed self-consistency fails as stated. At
seed -44 the fundamental frequency 220 + (-44)*5 is zero, the waveform is
identically zero, the single word of the output is counted silent, the
has_audio_energy check fails and the overall pass is false on the
synthesizer's own output. -/
theorem C1_counterexample :
    generate_mock_singing (-44) ["a"] =
      some (mockAudio (-44) 1, mockSr, mockTimestamps ["a"]) ∧
    overallPass (validate_timestamps (mockAudio (-44) 1) mockSr
      (mockTimestamps ["a"])) = false := by
  have haudio : mockAudio (-44) 1 = List.replicate 17640 (0 : ℝ) := by
    rw [mockAudio_neg44]
  constructor
  · rfl
  · rw [haudio, mockTimestamps_single]
    have hsil : isSilent (List.replicate 17640 (0 : ℝ)) mockSr ⟨"a", 0, 4 / 5⟩ = true := by
      apply isSilent_replicate_zero
      rw [show wordSegment (List.replicate 17640 (0 : ℝ)) mockSr ⟨"a", 0, 4 / 5⟩ =
        List.replicate 17640 (0 : ℝ) from haudio ▸ wordSegment_neg44]
      apply List.ne_nil_of_length_pos
      rw [List.length_replicate]
      norm_num
    have hflt : List.filter (fun w => isSilent (List.replicate 17640 (0 : ℝ)) mockSr w)
        [⟨"a", 0, 4 / 5⟩] = [⟨"a", 0, 4 / 5⟩] := by
      rw [List.filter_cons, hsil, if_pos rfl, List.filter_nil]
    have hfield : checkHasAudioEnergy (List.replicate 17640 (0 : ℝ)) mockSr
        [⟨"a", 0, 4 / 5⟩] = false := by
      rw [Bool.eq_false_iff, Ne, checkHasAudioEnergy_iff, hflt]
      intro hcon
      rw [List.length_cons, List.length_nil] at hcon
      omega
    rw [validate_eq]
    unfold overallPass
    simp only
    rw [hfield, Bool.and_false]

/-- C1, amended: for every non-empty word list and every integer seed, the
five structural checks (no negative durations, no overlaps, realistic
durations, within bounds, monotonic) all pass on the synthesizer's own
output; the energy check, and hence the overall pass, can fail for seeds
that zero the fundamental frequency. -/
theorem C1_structural (index : ℤ) (words : List String) (a : List ℝ) (s : ℚ)
    (t : List Word) (h : generate_mock_singing index words = some (a, s, t)) :
    (validate_timestamps a s t).no_negative_durations = true ∧
    (validate_timestamps a s t).no_overlaps = true ∧
    (validate_timestamps a s t).realistic_durations = true ∧
    (validate_timestamps a s t).within_bounds = true ∧
    (validate_timestamps a s t).monotonic = true := by
  unfold generate_mock_singing at h
  by_cases he : words.isEmpty
  · rw [if_pos he] at h
    cases h
  · rw [if_neg he, Option.some.injEq, Prod.ext_iff, Prod.ext_iff] at h
    obtain ⟨ha, hs, ht⟩ := h
    subst ha hs ht
    have hw : words ≠ [] := by simpa [List.isEmpty_iff] using he
    obtain ⟨h1, h2, h3, h4, h5⟩ := mock_structural_checks index words hw
    rw [validate_eq]
    exact ⟨h1, h2, h3, h4, h5⟩

/-- C1, witness for the amended theorem at a concrete input. -/
theorem C1_structural_witness :
    (validate_timestamps (mockAudio 0 1) mockSr
      (mockTimestamps ["hi"])).no_negative_durations = true ∧
    (validate_timestamps (mockAudio 0 1) mockSr
      (mockTimestamps ["hi"])).no_overlaps = true ∧
    (validate_timestamps (mockAudio 0 1) mockSr
      (mockTimestamps ["hi"])).realistic_durations = true ∧
    (validate_timestamps (mockAudio 0 1) mockSr
      (mockTimestamps ["hi"])).within_bounds = true ∧
    (validate_timestamps (mockAudio 0 1) mockSr
      (mockTimestamps ["hi"])).monotonic = true :=
  C1_structural 0 ["hi"] (mockAudio 0 1) mockSr (mockTimestamps ["hi"]) rfl

/-! ## Claim C6 -/

/-- C6: the synthesizer returns one entry per word, with the exact slot
boundaries start = i*0.8 and end = (i+1)*0.8 (the 3-decimal rounding is
exact on these values), contiguous slots, and total audio duration equal
to len(words) * 0.8. -/
theorem C6_slots (index : ℤ) (words : List String) (a : List ℝ) (s : ℚ)
    (t : List Word) (h : generate_mock_singing index words = some (a, s, t)) :
    t.length = words.length ∧
    (∀ i, i < words.length → t.getD i dummyWord =
      ⟨words.getD i "", (i : ℚ) * (4 / 5), ((i : ℚ) + 1) * (4 / 5)⟩) ∧
    (∀ i, i + 1 < words.length →
      (t.getD i dummyWord).end_ = (t.getD (i + 1) dummyWord).start) ∧
    (a.length : ℚ) / s = (words.length : ℚ) * (4 / 5) := by
  unfold generate_mock_singing at h
  by_cases he : words.isEmpty
  · rw [if_pos he] at h
    cases h
  · rw [if_neg he, Option.some.injEq, Prod.ext_iff, Prod.ext_iff] at h
    obtain ⟨ha, hs, ht⟩ := h
    subst ha hs ht
    refine ⟨mockTimestamps_length words, ?_, ?_, mockAudio_duration index words.length⟩
    · intro i hi
      exact mockTimestamps_getD words i hi
    · intro i hi
      rw [mockTimestamps_getD words i (by omega), mockTimestamps_getD words (i + 1) hi]
      push_cast
      ring

/-- C6, witness at two words and seed 1. -/
theorem C6_slots_witness :
    (mockTimestamps ["x", "y"]).length = 2 ∧
    (mockTimestamps ["x", "y"]).getD 1 dummyWord = ⟨"y", 4 / 5, 8 / 5⟩ ∧
    ((mockAudio 1 2).length : ℚ) / mockSr = 2 * (4 / 5) := by
  have H := C6_slots 1 ["x", "y"] (mockAudio 1 2) mockSr (mockTimestamps ["x", "y"]) rfl
  refine ⟨H.1, ?_, ?_⟩
  · rw [H.2.1 1 (by norm_num)]
    norm_num
  · have := H.2.2.2
    push_cast at this
    simpa using this

/-! ## Claim C7 -/

/-- C7: on an empty word list the synthesizer aborts without producing a
waveform or timestamps (in the source, the envelope broadcast and the
division by len(words) both raise before anything is returned). -/
theorem C7_empty_words (index : ℤ) : generate_mock_singing index [] = none := rfl

/-! ## Claim C2 -/

/-- C2, counterexample: on an empty timestamp list over a non-silent
waveform, has_audio_energy is false (len(silent) < len * 0.1 is 0 < 0) and
the overall pass is false, contradicting the claimed vacuous pass. -/
theorem C2_counterexample :
    (validate_timestamps [((1 : ℚ) / 2)] 1 ([] : List Word)).has_audio_energy = false ∧
    overallPass (validate_timestamps [((1 : ℚ) / 2)] 1 ([] : List Word)) = false := by
  rw [validate_nil]
  exact ⟨rfl, rfl⟩

/-- C2, amended: for an empty timestamp list the five structural checks
pass vacuously, but has_audio_energy is false (the source requires the
silent count 0 to be strictly below 0 * 0.1 = 0), so the overall pass is
false. -/
theorem C2_empty_report (audio : List ℚ) (sr : ℚ) :
    validate_timestamps audio sr ([] : List Word) =
      ⟨true, true, true, true, true, false⟩ ∧
    overallPass (validate_timestamps audio sr ([] : List Word)) = false := by
  rw [validate_nil]
  exact ⟨rfl, rfl⟩

/-! ## Claim C4 -/

/-- C4, counterexample: on a failing input (one word with end before
start), the source does not return the failed verdict to its caller: it
terminates the process from inside validate_timestamps via exit(1). -/
theorem C4_counterexample :
    (validateRun [((1 : ℚ) / 2)] 1 [⟨"x", 1, 1 / 2⟩]).2 = RunResult.exitedProcess 1 ∧
    overallPass (validate_timestamps [((1 : ℚ) / 2)] 1 [⟨"x", 1, 1 / 2⟩]) = false := by
  have h1 : checkNoNegativeDurations [(⟨"x", 1, 1 / 2⟩ : Word)] = false := by
    rw [Bool.eq_false_iff, Ne, checkNoNegativeDurations_iff]
    intro hall
    have := hall ⟨"x", 1, 1 / 2⟩ (by simp)
    norm_num at this
  have hov : overallPass (validate_timestamps [((1 : ℚ) / 2)] 1 [⟨"x", 1, 1 / 2⟩]) = false := by
    rw [validate_eq]
    unfold overallPass
    simp only
    rw [h1]
    simp only [Bool.false_and]
  refine ⟨?_, hov⟩
  unfold validateRun
  rw [if_neg]
  rw [hov]
  simp

/-- C4, amended: a validation failure is never surfaced as a returned
False; the function returns (True) exactly when all checks pass, and on
any failure it terminates the process with exit code 1 from inside
validate_timestamps rather than returning. -/
theorem C4_run_outcome (audio : List ℚ) (sr : ℚ) (ts : List Word) :
    (validateRun audio sr ts).2 ≠ RunResult.returned false ∧
    ((validateRun audio sr ts).2 = RunResult.returned true ↔
      overallPass (validate_timestamps audio sr ts) = true) ∧
    ((validateRun audio sr ts).2 = RunResult.exitedProcess 1 ↔
      overallPass (validate_timestamps audio sr ts) = false) := by
  unfold validateRun
  rcases Bool.eq_false_or_eq_true (overallPass (validate_timestamps audio sr ts)) with h | h <;>
    simp [h]

/-! ## Claim C8 -/

/-- C8: the validator is total and complete over arbitrary inputs: its
report always carries all six checks, each equal to its standalone
statistic computed independently of the others, and every word's energy
slice is a sublist of the waveform, so out-of-range timestamps are
tolerated without any out-of-bounds access. -/
theorem C8_total_report (audio : List ℚ) (sr : ℚ) (ts : List Word) :
    validate_timestamps audio sr ts =
      ⟨checkNoNegativeDurations ts, checkNoOverlaps ts, checkRealisticDurations ts,
        checkWithinBounds ((audio.length : ℚ) / sr) ts, checkMonotonic ts,
        checkHasAudioEnergy audio sr ts⟩ ∧
    ∀ w ∈ ts, List.Sublist (wordSegment audio sr w) audio :=
  ⟨rfl, fun _ _ => pySlice_sublist audio _ _⟩

/-! ## Claim C9 -/

/-- C9: the validator reads only the words list of the timestamp file;
two files with the same words and arbitrary differing metadata validate
identically, and within_bounds is decided against the actual audio
duration len(audio)/sr, never against the declared metadata duration. -/
theorem C9_metadata_ignored (audio : List ℚ) (sr : ℚ) (f g : TimestampFile)
    (h : f.words = g.words) :
    validateFile audio sr f = validateFile audio sr g ∧
    (validateFile audio sr f).within_bounds =
      checkWithinBounds ((audio.length : ℚ) / sr) f.words := by
  constructor
  · unfold validateFile
    rw [h]
  · rfl

/-- C9, witness: same words, different song id, lyrics, declared duration,
generator tag, declared sample rate and word count. -/
theorem C9_metadata_ignored_witness :
    validateFile [((1 : ℚ) / 2)] 1
      ⟨"song_001", "hello", 99, [⟨"hello", 0, 1 / 2⟩], ⟨"bark_tts", 44100, 7, "t1"⟩⟩ =
    validateFile [((1 : ℚ) / 2)] 1
      ⟨"song_002", "other", 1, [⟨"hello", 0, 1 / 2⟩], ⟨"mock_no_bark", 22050, 1, "t2"⟩⟩ :=
  (C9_metadata_ignored [((1 : ℚ) / 2)] 1 _ _ rfl).1

/-! ## Helper lemmas: slices of constant waveforms -/

theorem pySlice_replicate_nat {γ : Type*} (m a b : ℕ) (x : γ) (ha : a ≤ m) (hb : b ≤ m) :
    pySlice (List.replicate m x) (a : ℤ) (b : ℤ) = List.replicate (b - a) x := by
  unfold pySlice pySliceIdx
  rw [List.length_replicate, if_neg (by simp), if_neg (by simp),
    Int.toNat_natCast, Int.toNat_natCast, min_eq_left hb, min_eq_left ha,
    List.take_replicate, List.drop_replicate, min_eq_left hb]

theorem meanAbs_replicate (n : ℕ) (hn : n ≠ 0) (x : α) :
    meanAbs (List.replicate n x) = some |x| := by
  have hne : (List.replicate n x).isEmpty = false := by
    simp [List.isEmpty_iff, hn]
  have hcast : (n : α) ≠ 0 := Nat.cast_ne_zero.mpr hn
  unfold meanAbs
  rw [hne]
  rw [if_neg (by simp : ¬(false = true))]
  rw [List.map_replicate, List.sum_replicate, List.length_replicate,
    nsmul_eq_mul, mul_div_cancel_left₀ _ hcast]

theorem isSilent_of_meanAbs (audio : List α) (sr : ℚ) (w : Word) (e : α)
    (h : meanAbs (wordSegment audio sr w) = some e) (he : ¬(e < 1 / 1000)) :
    isSilent audio sr w = false := by
  unfold isSilent
  rw [h]
  exact decide_eq_false he

/-! ## Claim C3 -/

/-- C3, counterexample: at a word whose mean absolute amplitude is exactly
the 0.001 threshold, the claim's reading (lacking energy when the mean
does not exceed the threshold, hence the check failing) disagrees with the
code (silent only when strictly below the threshold, hence the check
passing). -/
theorem C3_counterexample :
    specHasAudioEnergy [(1 : ℚ) / 1000, 1 / 1000] 1 [⟨"w", 0, 2⟩] = false ∧
    (validate_timestamps [(1 : ℚ) / 1000, 1 / 1000] 1
      [⟨"w", 0, 2⟩]).has_audio_energy = true := by
  have hr0 : round ((0 : ℚ) * 1) = 0 := by simp
  have hr2 : round ((2 : ℚ) * 1) = 2 := by norm_num [round_eq]
  have hslice : specWordSlice [(1 : ℚ) / 1000, 1 / 1000] 1 ⟨"w", 0, 2⟩ =
      [(1 : ℚ) / 1000, 1 / 1000] := by
    show (([(1 : ℚ) / 1000, 1 / 1000].take (clampIdx 2 (round ((2 : ℚ) * 1)))).drop
      (clampIdx 2 (round ((0 : ℚ) * 1)))) = [(1 : ℚ) / 1000, 1 / 1000]
    rw [hr0, hr2]
    rfl
  have habs : |(1 : ℚ) / 1000| = 1 / 1000 := abs_of_nonneg (by norm_num)
  have hlacks : specLacksEnergy [(1 : ℚ) / 1000, 1 / 1000] 1 ⟨"w", 0, 2⟩ = true := by
    unfold specLacksEnergy
    rw [hslice, decide_eq_true_iff]
    norm_num [habs]
  have hspec : specHasAudioEnergy [(1 : ℚ) / 1000, 1 / 1000] 1 [⟨"w", 0, 2⟩] = false := by
    unfold specHasAudioEnergy
    rw [List.filter_cons, hlacks, if_pos rfl, List.filter_nil]
    apply decide_eq_false
    norm_num
  have h0 : pyInt ((0 : ℚ) * 1) = 0 := by
    unfold pyInt
    norm_num
  have h2 : pyInt ((2 : ℚ) * 1) = 2 := by
    unfold pyInt
    norm_num
  have hseg : wordSegment [(1 : ℚ) / 1000, 1 / 1000] 1 ⟨"w", 0, 2⟩ =
      [(1 : ℚ) / 1000, 1 / 1000] := by
    show pySlice _ (pyInt ((0 : ℚ) * 1)) (pyInt ((2 : ℚ) * 1)) = _
    rw [h0, h2]
    rfl
  have hsil : isSilent [(1 : ℚ) / 1000, 1 / 1000] 1 ⟨"w", 0, 2⟩ = false := by
    apply isSilent_of_meanAbs _ _ _ ((1 : ℚ) / 1000)
    · rw [hseg]
      unfold meanAbs
      norm_num [habs]
    · norm_num
  have hcode : checkHasAudioEnergy [(1 : ℚ) / 1000, 1 / 1000] 1 [⟨"w", 0, 2⟩] = true := by
    rw [checkHasAudioEnergy_iff, List.filter_cons, hsil]
    simp
  exact ⟨hspec, hcode⟩

/-- C3, amended: the code slices at truncated indices int(start*sr) ..
int(end*sr) under Python slice normalization (negative indices wrap from
the end rather than clamping), a word is silent exactly when its slice is
non-empty with mean absolute amplitude strictly below 0.001 (an empty
slice gives NaN, which fails the comparison), and the check passes exactly
when ten times the silent count is strictly below the word count. -/
theorem C3_energy_semantics (audio : List ℚ) (sr : ℚ) (ts : List Word) :
    ((validate_timestamps audio sr ts).has_audio_energy = true ↔
      10 * (ts.filter (fun w => isSilent audio sr w)).length < ts.length) ∧
    ∀ w : Word, isSilent audio sr w = true ↔
      (wordSegment audio sr w ≠ [] ∧
        ((wordSegment audio sr w).map (fun x => |x|)).sum /
          ((wordSegment audio sr w).length : ℚ) < 1 / 1000) := by
  refine ⟨checkHasAudioEnergy_iff audio sr ts, ?_⟩
  intro w
  rcases eq_or_ne (wordSegment audio sr w) [] with hseg | hseg
  · unfold isSilent
    rw [hseg]
    simp [meanAbs]
  · have hne : (wordSegment audio sr w).isEmpty = false := by
      simpa [List.isEmpty_iff] using hseg
    unfold isSilent
    rw [show meanAbs (wordSegment audio sr w) =
        some (((wordSegment audio sr w).map (fun x => |x|)).sum /
          ((wordSegment audio sr w).length : ℚ)) from by
      unfold meanAbs
      rw [hne]
      rw [if_neg (by simp : ¬(false = true))]]
    show decide _ = true ↔ _
    rw [decide_eq_true_iff]
    exact ⟨fun h => ⟨hseg, h⟩, fun h => h.2⟩

/-! ## Claim C5 -/

/-- C5: on the two overlapping words a [0,1] and b [0.5,1.5] over any
2-second waveform on which neither word is silent, the report is exactly
no_overlaps = false with every other check true, and the overall pass is
false. -/
theorem C5_overlap_case (audio : List ℚ) (sr : ℚ)
    (hdur : (audio.length : ℚ) / sr = 2)
    (ha : isSilent audio sr ⟨"a", 0, 1⟩ = false)
    (hb : isSilent audio sr ⟨"b", 1 / 2, 3 / 2⟩ = false) :
    validate_timestamps audio sr [⟨"a", 0, 1⟩, ⟨"b", 1 / 2, 3 / 2⟩] =
      ⟨true, false, true, true, true, true⟩ ∧
    overallPass (validate_timestamps audio sr
      [⟨"a", 0, 1⟩, ⟨"b", 1 / 2, 3 / 2⟩]) = false := by
  have c1 : checkNoNegativeDurations [(⟨"a", 0, 1⟩ : Word), ⟨"b", 1 / 2, 3 / 2⟩] = true := by
    rw [checkNoNegativeDurations_iff]
    intro w hw
    simp only [List.mem_cons, List.not_mem_nil, or_false] at hw
    rcases hw with rfl | rfl <;> norm_num
  have c2 : checkNoOverlaps [(⟨"a", 0, 1⟩ : Word), ⟨"b", 1 / 2, 3 / 2⟩] = false := by
    rw [Bool.eq_false_iff, Ne, checkNoOverlaps_iff]
    intro hall
    have := hall 0 (by norm_num)
    simp only [List.getD_cons_zero, List.getD_cons_succ] at this
    norm_num at this
  have c3 : checkRealisticDurations [(⟨"a", 0, 1⟩ : Word), ⟨"b", 1 / 2, 3 / 2⟩] = true := by
    rw [checkRealisticDurations_iff]
    intro w hw
    simp only [List.mem_cons, List.not_mem_nil, or_false] at hw
    rcases hw with rfl | rfl <;> constructor <;> norm_num
  have c4 : checkWithinBounds 2 [(⟨"a", 0, 1⟩ : Word), ⟨"b", 1 / 2, 3 / 2⟩] = true := by
    rw [checkWithinBounds_iff]
    intro w hw
    simp only [List.mem_cons, List.not_mem_nil, or_false] at hw
    rcases hw with rfl | rfl <;> constructor <;> norm_num
  have c5 : checkMonotonic [(⟨"a", 0, 1⟩ : Word), ⟨"b", 1 / 2, 3 / 2⟩] = true := by
    rw [checkMonotonic_iff]
    intro i hi
    have hi0 : i = 0 := by
      simp only [List.length_cons, List.length_nil] at hi
      omega
    subst hi0
    simp only [List.getD_cons_zero, List.getD_cons_succ]
    norm_num
  have c6 : checkHasAudioEnergy audio sr [(⟨"a", 0, 1⟩ : Word), ⟨"b", 1 / 2, 3 / 2⟩] = true := by
    rw [checkHasAudioEnergy_iff]
    rw [List.filter_cons, List.filter_cons, ha, hb]
    simp
  have hrec : validate_timestamps audio sr [⟨"a", 0, 1⟩, ⟨"b", 1 / 2, 3 / 2⟩] =
      ⟨true, false, true, true, true, true⟩ := by
    rw [validate_eq, hdur, c1, c2, c3, c4, c5, c6]
  exact ⟨hrec, by rw [hrec]; rfl⟩

/-- C5, witness: a 2-second waveform of 8 samples of amplitude one half at
sample rate 4. -/
theorem C5_overlap_case_witness :
    validate_timestamps (List.replicate 8 ((1 : ℚ) / 2)) 4
      [⟨"a", 0, 1⟩, ⟨"b", 1 / 2, 3 / 2⟩] = ⟨true, false, true, true, true, true⟩ := by
  have hmean : ∀ w : Word, wordSegment (List.replicate 8 ((1 : ℚ) / 2)) 4 w =
      List.replicate 4 ((1 : ℚ) / 2) →
      isSilent (List.replicate 8 ((1 : ℚ) / 2)) 4 w = false := by
    intro w hw
    apply isSilent_of_meanAbs _ _ _ ((1 : ℚ) / 2)
    · rw [hw]
      have := meanAbs_replicate (α := ℚ) 4 (by norm_num) ((1 : ℚ) / 2)
      rw [abs_of_nonneg (by norm_num : (0 : ℚ) ≤ 1 / 2)] at this
      exact this
    · norm_num
  have hsega : wordSegment (List.replicate 8 ((1 : ℚ) / 2)) 4 ⟨"a", 0, 1⟩ =
      List.replicate 4 ((1 : ℚ) / 2) := by
    show pySlice _ (pyInt ((0 : ℚ) * 4)) (pyInt ((1 : ℚ) * 4)) = _
    rw [show pyInt ((0 : ℚ) * 4) = ((0 : ℕ) : ℤ) from by unfold pyInt; norm_num,
      show pyInt ((1 : ℚ) * 4) = ((4 : ℕ) : ℤ) from by unfold pyInt; norm_num,
      pySlice_replicate_nat 8 0 4 _ (by norm_num) (by norm_num)]
  have hsegb : wordSegment (List.replicate 8 ((1 : ℚ) / 2)) 4 ⟨"b", 1 / 2, 3 / 2⟩ =
      List.replicate 4 ((1 : ℚ) / 2) := by
    show pySlice _ (pyInt ((1 / 2 : ℚ) * 4)) (pyInt ((3 / 2 : ℚ) * 4)) = _
    rw [show pyInt ((1 / 2 : ℚ) * 4) = ((2 : ℕ) : ℤ) from by unfold pyInt; norm_num,
      show pyInt ((3 / 2 : ℚ) * 4) = ((6 : ℕ) : ℤ) from by unfold pyInt; norm_num,
      pySlice_replicate_nat 8 2 6 _ (by norm_num) (by norm_num)]
  exact (C5_overlap_case (List.replicate 8 ((1 : ℚ) / 2)) 4
    (by rw [List.length_replicate]; norm_num)
    (hmean _ hsega) (hmean _ hsegb)).1

/-! ## Claim C10 -/

/-- C10, counterexample: an inverted word with start 5 and end -5 over a
12-sample zero waveform at sample rate 1 satisfies the claim's criterion
int(end*sr) <= int(start*sr), yet its Python slice wraps to the non-empty
range [5:7], the word is counted silent, and it alone makes
has_audio_energy fail. -/
theorem C10_counterexample :
    pyInt ((-5 : ℚ) * 1) ≤ pyInt ((5 : ℚ) * 1) ∧
    isSilent (List.replicate 12 (0 : ℚ)) 1 ⟨"x", 5, -5⟩ = true ∧
    (validate_timestamps (List.replicate 12 (0 : ℚ)) 1
      [⟨"x", 5, -5⟩]).has_audio_energy = false := by
  have h1 : pyInt ((-5 : ℚ) * 1) = -5 := by
    unfold pyInt
    rw [mul_one, if_pos (by norm_num)]
    rw [show ((-5 : ℚ)) = (((-5 : ℤ) : ℚ)) by norm_num, Int.ceil_intCast]
  have h2 : pyInt ((5 : ℚ) * 1) = 5 := by
    unfold pyInt
    rw [mul_one, if_neg (by norm_num)]
    rw [show ((5 : ℚ)) = (((5 : ℤ) : ℚ)) by norm_num, Int.floor_intCast]
  have hseg : wordSegment (List.replicate 12 (0 : ℚ)) 1 ⟨"x", 5, -5⟩ =
      List.replicate 2 (0 : ℚ) := by
    show pySlice _ (pyInt ((5 : ℚ) * 1)) (pyInt ((-5 : ℚ) * 1)) = _
    rw [h1, h2]
    unfold pySlice
    rw [List.length_replicate,
      show pySliceIdx 12 (-5) = 7 from rfl,
      show pySliceIdx 12 5 = 5 from rfl,
      List.take_replicate, List.drop_replicate]
    norm_num
  have hsil : isSilent (List.replicate 12 (0 : ℚ)) 1 ⟨"x", 5, -5⟩ = true := by
    apply isSilent_replicate_zero
    rw [hseg]
    apply List.ne_nil_of_length_pos
    rw [List.length_replicate]
    norm_num
  refine ⟨by rw [h1, h2]; norm_num, hsil, ?_⟩
  have hflt : List.filter (fun w => isSilent (List.replicate 12 (0 : ℚ)) 1 w)
      [⟨"x", 5, -5⟩] = [⟨"x", 5, -5⟩] := by
    rw [List.filter_cons, hsil, if_pos rfl, List.filter_nil]
  show checkHasAudioEnergy _ _ _ = false
  rw [Bool.eq_false_iff, Ne, checkHasAudioEnergy_iff, hflt]
  intro hcon
  rw [List.length_cons, List.length_nil] at hcon
  omega

/-- C10, amended: a word whose Python slice is actually empty is never
counted silent (the NaN mean fails the comparison), and appending such a
word to any passing word list keeps has_audio_energy passing; the
criterion int(end*sr) <= int(start*sr) does not guarantee an empty slice,
since a sufficiently negative end index wraps to a non-empty range. -/
theorem C10_empty_slice (audio : List ℚ) (sr : ℚ) (ts : List Word) (w : Word)
    (h : wordSegment audio sr w = []) :
    isSilent audio sr w = false ∧
    ((validate_timestamps audio sr ts).has_audio_energy = true →
      (validate_timestamps audio sr (ts ++ [w])).has_audio_energy = true) := by
  have hsil : isSilent audio sr w = false := by
    unfold isSilent
    rw [h]
    rfl
  refine ⟨hsil, ?_⟩
  intro hpass
  rw [show (validate_timestamps audio sr ts).has_audio_energy =
    checkHasAudioEnergy audio sr ts from rfl, checkHasAudioEnergy_iff] at hpass
  show checkHasAudioEnergy audio sr (ts ++ [w]) = true
  rw [checkHasAudioEnergy_iff, List.filter_append,
    show List.filter (fun w' => isSilent audio sr w') [w] = [] from by
      rw [List.filter_cons, hsil]
      simp,
    List.append_nil, List.length_append, List.length_cons, List.length_nil]
  omega

/-- C10, witness for the amended theorem: a zero-length word over a
one-sample waveform, appended to a passing one-word list. -/
theorem C10_empty_slice_witness :
    isSilent [((1 : ℚ) / 2)] 1 ⟨"", 0, 0⟩ = false ∧
    ((validate_timestamps [((1 : ℚ) / 2)] 1 [⟨"a", 0, 1⟩]).has_audio_energy = true →
      (validate_timestamps [((1 : ℚ) / 2)] 1
        ([⟨"a", 0, 1⟩] ++ [⟨"", 0, 0⟩])).has_audio_energy = true) :=
  C10_empty_slice [((1 : ℚ) / 2)] 1 [⟨"a", 0, 1⟩] ⟨"", 0, 0⟩ (by
    show pySlice _ (pyInt ((0 : ℚ) * 1)) (pyInt ((0 : ℚ) * 1)) = _
    rw [show pyInt ((0 : ℚ) * 1) = 0 from by unfold pyInt; norm_num]
    rfl)

end SongVal
